import Mathlib

/-!
Shallow embedding of the custom-resume PDF pipeline of the Resumaker backend
(`app/services/latex_generation_service.py`, `app/services/latex_service.py`,
`app/services/pdf_extraction_service.py`, `app/routers/custom_resume.py`),
together with theorems settling specification claims about it.

Text is modelled as `List Char` (Python `str`); Python `str.replace` with a
single-character pattern, `str.find`, `sep.join(...)` and slicing are embedded
as executable functions below.  Mongo ObjectIds are modelled as `Nat` (already
parsed); numeric GPA fields are embedded by their Python decimal rendering
(`str(x)`), which is all the renderer uses of them.  Literal braces inside
Lean string literals are written with the escapes `\x7b` and `\x7d`.
-/

namespace Resumaker

/-- Text of the embedded program: Python `str` as a list of characters. -/
abbrev Str := List Char

/-- Literal helper: a Lean string literal as `Str`. -/
def lit (s : String) : Str := s.toList

/-- Python `sep.join(parts)`. -/
def pyJoin (sep : Str) : List Str → Str
  | [] => []
  | [x] => x
  | x :: y :: xs => x ++ sep ++ pyJoin sep (y :: xs)

/-- Python `text.replace(old, new)` for a single-character pattern `old`:
every occurrence of `old` is replaced by `new`. -/
def pyReplaceChar (old : Char) (new : Str) : Str → Str
  | [] => []
  | c :: t => (if c = old then new else [c]) ++ pyReplaceChar old new t

/-- The replacement chain of `escape_latex`
(`latex_generation_service.py` lines 23-34), in source order: backslash is
replaced first, then `& % $ # ^ _ { } ~`. -/
def escapeChain (text : Str) : Str :=
  let t1 := pyReplaceChar '\\' (lit "\\textbackslash\x7b\x7d") text
  let t2 := pyReplaceChar '&' (lit "\\&") t1
  let t3 := pyReplaceChar '%' (lit "\\%") t2
  let t4 := pyReplaceChar '$' (lit "\\$") t3
  let t5 := pyReplaceChar '#' (lit "\\#") t4
  let t6 := pyReplaceChar '^' (lit "\\textasciicircum\x7b\x7d") t5
  let t7 := pyReplaceChar '_' (lit "\\_") t6
  let t8 := pyReplaceChar '\x7b' (lit "\\\x7b") t7
  let t9 := pyReplaceChar '\x7d' (lit "\\\x7d") t8
  pyReplaceChar '~' (lit "\\textasciitilde\x7b\x7d") t9

/-- `escape_latex` (`latex_generation_service.py` lines 15-36): the
`if not text: return ""` guard followed by the replacement chain. -/
def escape_latex (text : Str) : Str :=
  if text = [] then [] else escapeChain text

/-- The ten LaTeX special characters handled by `escape_latex`, as listed in
its docstring. -/
def specials : List Char :=
  ['&', '%', '$', '#', '^', '_', '\x7b', '\x7d', '~', '\\']

/-- The net effect of the whole replacement chain on one original character
(later replacements also rewrite braces introduced by the backslash and caret
escapes; the tilde escape is introduced after brace replacement, so its empty
brace group stays as written). -/
def escapeImage (c : Char) : Str :=
  if c = '\\' then lit "\\textbackslash\\\x7b\\\x7d"
  else if c = '&' then lit "\\&"
  else if c = '%' then lit "\\%"
  else if c = '$' then lit "\\$"
  else if c = '#' then lit "\\#"
  else if c = '^' then lit "\\textasciicircum\\\x7b\\\x7d"
  else if c = '_' then lit "\\_"
  else if c = '\x7b' then lit "\\\x7b"
  else if c = '\x7d' then lit "\\\x7d"
  else if c = '~' then lit "\\textasciitilde\x7b\x7d"
  else [c]

/-- The escape units that `escape_latex` emits: a special character counts as
escaped exactly when it occurs inside one of these. -/
def escTokens : List Str :=
  [lit "\\&", lit "\\%", lit "\\$", lit "\\#", lit "\\_",
   lit "\\\x7b", lit "\\\x7d",
   lit "\\textbackslash", lit "\\textasciicircum", lit "\\textasciitilde\x7b\x7d"]

/-- A text contains no unescaped special character: it splits into ordinary
(non-special) characters and complete escape units. -/
inductive LatexSafe : Str → Prop where
  | nil : LatexSafe []
  | raw (c : Char) (t : Str) (hc : c ∉ specials) (ht : LatexSafe t) :
      LatexSafe (c :: t)
  | tok (tk t : Str) (htk : tk ∈ escTokens) (ht : LatexSafe t) :
      LatexSafe (tk ++ t)

/-- `format_date_range` (`latex_generation_service.py` lines 39-43): escapes
both endpoints and joins them with the literal separator of the f-string
`"{start} -- {end}"`. -/
def format_date_range (start_date end_date : Str) : Str :=
  escape_latex start_date ++ lit " -- " ++ escape_latex end_date

/-- Python `haystack.find(needle)` helper: scan from index `i`. -/
def pyFindAux (pat : Str) : Str → Nat → Option Nat
  | [], i => if pat = [] then some i else none
  | c :: t, i =>
      if pat.isPrefixOf (c :: t) then some i else pyFindAux pat t (i + 1)

/-- Python `haystack.find(needle)`: least index at which `needle` occurs, as
`some i`; `none` stands for Python's `-1`. -/
def pyFind (t pat : Str) : Option Nat := pyFindAux pat t 0

/-- Python `haystack.find(needle, start)`. -/
def pyFindFrom (t pat : Str) (start : Nat) : Option Nat :=
  (pyFind (t.drop start) pat).map (· + start)

/-- The literal body-start marker searched for by
`generate_latex_from_resume` (line 361). -/
def bodyStartMarker : Str := lit "\\begin\x7bdocument\x7d"

/-- The literal body-end marker searched for by
`generate_latex_from_resume` (line 362). -/
def bodyEndMarker : Str := lit "\\end\x7bdocument\x7d"

/-- `doc_start_end` of `generate_latex_from_resume` (lines 371-376): the index
one past the newline that ends the `\begin{document}` line, or the end of the
marker itself when no newline follows. -/
def lineEnd (template : Str) (ds : Nat) : Nat :=
  match pyFindFrom template (lit "\n") ds with
  | none => ds + bodyStartMarker.length
  | some j => j + 1

/-- The template-splicing part of `generate_latex_from_resume`
(`latex_generation_service.py` lines 360-376 and 413-417): locate
`\begin{document}` and `\end{document}`, fail (the `ValueError`) when either
is missing, otherwise keep everything up to the end of the `\begin{document}`
line, insert the section fragments joined by blank lines, and close with
`\end{document}`. -/
def compose (template : Str) (sections : List Str) : Except Str Str :=
  match pyFind template bodyStartMarker, pyFind template bodyEndMarker with
  | some ds, some _ =>
      let header := template.take ds
      let dsEnd := lineEnd template ds
      let body := pyJoin (lit "\n\n") sections
      .ok (header ++ (template.drop ds).take (dsEnd - ds) ++ lit "\n\n" ++
        body ++ lit "\n\n" ++ bodyEndMarker)
  | _, _ =>
      .error
        (lit "Template does not contain \\begin\x7bdocument\x7d or \\end\x7bdocument\x7d")

/-- A well-formed concrete template, used by the C6 witness. -/
def c6tmpl : Str :=
  lit "\\documentclass\x7barticle\x7d\n\\begin\x7bdocument\x7d\nOLD\n\\end\x7bdocument\x7d"

/-- A template missing both markers, used by the C6 witness. -/
def c6tmplBad : Str := lit "hello world"

/-- `CustomLink` (`app/models/heading.py`). -/
structure CustomLink where
  label : Str
  url : Str
deriving DecidableEq

/-- `HeadingResponse` (`app/models/heading.py`); ObjectIds are modelled as
`Nat`, timestamps are omitted (never read by the pipeline). -/
structure HeadingResponse where
  id : Nat
  user_id : Nat
  mobile : Option Str
  custom_links : List CustomLink
deriving DecidableEq

/-- `EducationResponse` (`app/models/education.py`); the `Optional[float]`
GPA fields are embedded by their Python decimal rendering `str(x)`, which is
the only use the renderer makes of them. -/
structure EducationResponse where
  id : Nat
  user_id : Nat
  institution : Str
  location : Str
  degree : Str
  gpa : Option Str
  max_gpa : Option Str
  start_date : Str
  end_date : Str
  courses : Option (List Str)
deriving DecidableEq

/-- `ProjectItem` (`app/models/experience.py`). -/
structure ProjectItem where
  title : Str
  description : Str
deriving DecidableEq

/-- `ExperienceResponse` (`app/models/experience.py`). -/
structure ExperienceResponse where
  id : Nat
  user_id : Nat
  company : Str
  location : Str
  position : Str
  start_date : Str
  end_date : Str
  projects : List ProjectItem
deriving DecidableEq

/-- `ProjectResponse` (`app/models/project.py`). -/
structure ProjectResponse where
  id : Nat
  user_id : Nat
  name : Str
  start_date : Str
  end_date : Str
  tech_stack : Str
  link : Option Str
  link_label : Option Str
  subpoints : List Str
deriving DecidableEq

/-- `SkillResponse` (`app/models/skill.py`). -/
structure SkillResponse where
  id : Nat
  user_id : Nat
  category : Str
  items : List Str
  notes : Option Str
deriving DecidableEq

/-- `CertificationResponse` (`app/models/certification.py`). -/
structure CertificationResponse where
  id : Nat
  user_id : Nat
  title : Str
  start_date : Str
  end_date : Str
  instructor : Option Str
  platform : Str
  certification_link : Option Str
deriving DecidableEq

/-- `AwardResponse` (`app/models/award.py`). -/
structure AwardResponse where
  id : Nat
  user_id : Nat
  title : Str
  date : Str
deriving DecidableEq

/-- `VolunteerResponse` (`app/models/volunteer.py`). -/
structure VolunteerResponse where
  id : Nat
  user_id : Nat
  position : Str
  organization : Str
  location : Str
  description : Str
  start_date : Str
  end_date : Str
deriving DecidableEq

/-- `UserResponse` (`app/models/user.py`), restricted to the fields the
pipeline reads. -/
structure UserResponse where
  id : Nat
  email : Str
  first_name : Str
  last_name : Str
deriving DecidableEq

/-- Python `str.lower` (ASCII case folding suffices for the URLs checked). -/
def pyLower (s : Str) : Str := s.map Char.toLower

/-- One link line of the heading renderer
(`latex_generation_service.py` lines 73-84): `linkedin` / `github` substring
special cases on the lowercased URL, otherwise the link's own label (or the
escaped URL when the label is empty). -/
def headingLinkLine (link : CustomLink) : Str :=
  let url := link.url
  let url_escaped := escape_latex url
  if (pyFind (pyLower url) (lit "linkedin")).isSome then
    lit "  \\href\x7b" ++ url ++ lit "\x7d\x7bLinkedIn: " ++ url_escaped ++ lit "\x7d"
  else if (pyFind (pyLower url) (lit "github")).isSome then
    lit "  \\href\x7b" ++ url ++ lit "\x7d\x7bGitHub: ~~" ++ url_escaped ++ lit "\x7d"
  else
    let label := if link.label ≠ [] then escape_latex link.label else url_escaped
    lit "  \\href\x7b" ++ url ++ lit "\x7d\x7b" ++ label ++ lit "\x7d"

/-- `generate_heading_section` (lines 46-98): uses the first heading element
if any, else falls back to the user's data; the identity line always comes
from the user's full name and e-mail. -/
def generate_heading_section (headings : List HeadingResponse)
    (user : UserResponse) : Str :=
  let full_name := user.first_name ++ lit " " ++ user.last_name
  let email := user.email
  let mobile : Str :=
    match headings with
    | [] => []
    | heading :: _ => match heading.mobile with | some m => m | none => []
  let custom_links : List CustomLink :=
    match headings with
    | [] => []
    | heading :: _ => heading.custom_links
  let name_escaped := escape_latex full_name
  let email_escaped := escape_latex email
  let line1 :=
    lit "\\begin\x7btabular*\x7d\x7b\\textwidth\x7d\x7bl@\x7b\\extracolsep\x7b\\fill\x7d\x7dr\x7d"
  let line2 :=
    lit "  \\textbf\x7b\\LARGE " ++ name_escaped ++
      lit "\x7d & Email: \\href\x7bmailto:" ++ email ++ lit "\x7d\x7b" ++
      email_escaped ++ lit "\x7d\\\\"
  let link_lines := custom_links.map headingLinkLine
  let midLines : List Str :=
    if link_lines ≠ [] ∧ mobile ≠ [] then
      [pyJoin (lit " \\\\") link_lines ++ lit " & Mobile:~~~" ++
        escape_latex mobile ++ lit " \\\\"]
    else if link_lines ≠ [] then
      [pyJoin (lit " \\\\") link_lines ++ lit " \\\\"]
    else if mobile ≠ [] then
      [lit "  & Mobile:~~~" ++ escape_latex mobile ++ lit " \\\\"]
    else []
  pyJoin (lit "\n")
    ([line1, line2] ++ midLines ++ [lit "\\end\x7btabular*\x7d"])

/-- Lines contributed by one education entry (lines 111-132). -/
def eduLines (edu : EducationResponse) : List Str :=
  let institution := escape_latex edu.institution
  let location := escape_latex edu.location
  let degree := escape_latex edu.degree
  let degree_line :=
    match edu.gpa, edu.max_gpa with
    | some g, some mg => degree ++ lit ";  GPA: " ++ g ++ lit "/" ++ mg
    | some g, none => degree ++ lit ";  GPA: " ++ g
    | none, _ => degree
  let date_range := format_date_range edu.start_date edu.end_date
  [lit "    \\resumeSubheading",
   lit "      \x7b" ++ institution ++ lit "\x7d\x7b" ++ location ++ lit "\x7d",
   lit "      \x7b" ++ degree_line ++ lit "\x7d\x7b" ++ date_range ++ lit "\x7d"] ++
  (match edu.courses with
   | some courses =>
       if courses = [] then []
       else
         [lit "      \x7b\\scriptsize \\textit\x7b \\footnotesize\x7b\\newline\x7b\x7d\\textbf\x7bCourses:\x7d " ++
           pyJoin (lit ", ") (courses.map escape_latex) ++ lit "\x7d\x7d\x7d"]
   | none => [])

/-- `generate_education_section` (lines 101-136). -/
def generate_education_section (educations : List EducationResponse) : Str :=
  if educations = [] then []
  else
    pyJoin (lit "\n")
      ([lit "%-----------EDUCATION-----------------",
        lit "\\section\x7bEducation\x7d",
        lit "  \\resumeSubHeadingListStart"] ++
       educations.flatMap eduLines ++
       [lit "  \\resumeSubHeadingListEnd"])

/-- Lines contributed by one experience entry (lines 151-168). -/
def expLines (exp : ExperienceResponse) : List Str :=
  let company := escape_latex exp.company
  let location := escape_latex exp.location
  let position := escape_latex exp.position
  let date_range := format_date_range exp.start_date exp.end_date
  [lit "        \\resumeSubheading",
   lit "  \x7b" ++ company ++ lit "\x7d\x7b" ++ location ++ lit "\x7d",
   lit "  \x7b" ++ position ++ lit "\x7d\x7b" ++ date_range ++ lit "\x7d"] ++
  (if exp.projects ≠ [] then
    [lit "    \\resumeItemListStart"] ++
    exp.projects.flatMap (fun project =>
      [lit "        \\resumeItem\x7b" ++ escape_latex project.title ++ lit "\x7d",
       lit "          \x7b" ++ escape_latex project.description ++ lit "\x7d"]) ++
    [lit "      \\resumeItemListEnd"]
   else [])

/-- `generate_experience_section` (lines 139-172). -/
def generate_experience_section (experiences : List ExperienceResponse) : Str :=
  if experiences = [] then []
  else
    pyJoin (lit "\n")
      ([lit "%-----------EXPERIENCE-----------------",
        lit "\\vspace\x7b-5pt\x7d",
        lit "\\section\x7bExperience\x7d",
        lit "  \\resumeSubHeadingListStart",
        lit "\\vspace\x7b3pt\x7d"] ++
       experiences.flatMap expLines ++
       [lit "\\resumeSubHeadingListEnd"])

/-- Lines contributed by one project entry (lines 186-213). -/
def projLines (project : ProjectResponse) : List Str :=
  let name := escape_latex project.name
  let date_range := format_date_range project.start_date project.end_date
  let tech_stack_formatted := lit "Tech: " ++ escape_latex project.tech_stack
  let link_text : Str :=
    match project.link with
    | some l =>
        if l = [] then lit "\x7b\x7d"
        else
          let raw_label := match project.link_label with
            | some ll => if ll = [] then lit "Link" else ll
            | none => lit "Link"
          lit "\\href\x7b" ++ l ++ lit "\x7d\x7b" ++ escape_latex raw_label ++ lit "\x7d"
    | none => lit "\x7b\x7d"
  [lit "\\resumeSubHeadingListStart",
   lit "    \\resumeSubheading\x7b" ++ name ++ lit "\x7d",
   lit "    \x7b" ++ date_range ++ lit "\x7d\x7b" ++ tech_stack_formatted ++ lit "\x7d",
   lit "    \x7b" ++ link_text ++ lit "\x7d"] ++
  (if project.subpoints ≠ [] then
    [lit "    \\resumeItemListStart"] ++
    project.subpoints.flatMap (fun subpoint =>
      [lit "        \\resumeItem\x7b\x7d",
       lit "          \x7b" ++ escape_latex subpoint ++ lit "\x7d"]) ++
    [lit "      \\resumeItemListEnd"]
   else []) ++
  [lit "\\resumeSubHeadingListEnd"]

/-- `generate_projects_section` (lines 175-215); note the deliberate empty
line after the section header. -/
def generate_projects_section (projects : List ProjectResponse) : Str :=
  if projects = [] then []
  else
    pyJoin (lit "\n")
      ([lit "%-----------PROJECTS-----------------",
        lit "\\vspace\x7b3pt\x7d",
        lit "\\section\x7bProjects\x7d",
        []] ++
       projects.flatMap projLines)

/-- One skill category line (lines 229-235): spacing keyed on the escaped
category's length. -/
def skillLine (skill : SkillResponse) : Str :=
  let category := escape_latex skill.category
  let items := pyJoin (lit ", ") (skill.items.map escape_latex)
  let spacing :=
    if category.length ≤ 10 then lit "~~~~~~"
    else if category.length ≤ 15 then lit "~~~~"
    else lit "~~"
  lit "\t\\resumeSubItem\x7b" ++ category ++ lit "\x7d\x7b" ++ spacing ++ items ++
    lit "\x7d"

/-- `generate_skills_section` (lines 218-239). -/
def generate_skills_section (skills : List SkillResponse) : Str :=
  if skills = [] then []
  else
    pyJoin (lit "\n")
      ([lit "%-----------SKILLS SUMMARY-----------------",
        lit "\\vspace\x7b-5pt\x7d",
        lit "\\section\x7bSkills Summary\x7d",
        lit "\t\\resumeSubHeadingListStart"] ++
       skills.map skillLine ++
       [lit "\\resumeSubHeadingListEnd"])

/-- Lines contributed by one certification entry (lines 252-276). -/
def certLines (cert : CertificationResponse) : List Str :=
  let title := escape_latex cert.title
  let date_range := format_date_range cert.start_date cert.end_date
  let instructor : Str :=
    match cert.instructor with
    | some i => if i = [] then [] else escape_latex i
    | none => []
  let platform := escape_latex cert.platform
  let org_line :=
    if instructor ≠ [] then
      lit "Instructor: " ++ instructor ++ lit " \\hspace\x7b48pt\x7dPlatform: " ++
        platform
    else lit "Platform: " ++ platform
  let link_text : Str :=
    match cert.certification_link with
    | some l =>
        if l = [] then lit "\x7b\x7d"
        else lit "\\href\x7b" ++ l ++ lit "\x7d\x7bCertification Link\x7d"
    | none => lit "\x7b\x7d"
  [lit "\\resumeSubHeadingListStart",
   lit "    \\resumeSubheading\x7b" ++ title ++ lit "\x7d",
   lit "    \x7b" ++ date_range ++ lit "\x7d\x7b" ++ org_line ++ lit "\x7d",
   lit "    \x7b" ++ link_text ++ lit "\x7d",
   lit "\\resumeSubHeadingListEnd"]

/-- `generate_certifications_section` (lines 242-280). -/
def generate_certifications_section
    (certifications : List CertificationResponse) : Str :=
  if certifications = [] then []
  else
    pyJoin (lit "\n")
      ([lit "%-----------CERTIFICATIONS-----------------",
        lit "\\vspace\x7b-5pt\x7d",
        lit "\\section\x7bCertifications\x7d"] ++
       certifications.flatMap certLines ++
       [lit "\\vspace\x7b-1pt\x7d"])

/-- Lines contributed by one award entry (lines 293-297). -/
def awardLines (award : AwardResponse) : List Str :=
  [lit "\\item \x7b" ++ escape_latex award.title ++ lit " \\hfill \\raggedleft " ++
    escape_latex award.date ++ lit "\x7d",
   lit "\\vspace\x7b-5pt\x7d"]

/-- `generate_awards_section` (lines 283-301). -/
def generate_awards_section (awards : List AwardResponse) : Str :=
  if awards = [] then []
  else
    pyJoin (lit "\n")
      ([lit "%-----------AWARDS-----------------",
        lit "\\section\x7bHonors and Awards\x7d",
        lit "\\begin\x7bdescription\x7d[font=$\\bullet$]"] ++
       awards.flatMap awardLines ++
       [lit "\\end\x7bdescription\x7d"])

/-- Lines contributed by one volunteer entry (lines 315-330); the structural
comparison with the list's last element decides the trailing spacing, exactly
like the Python `volunteer != volunteers[-1]`. -/
def volLines (volunteers : List VolunteerResponse)
    (volunteer : VolunteerResponse) : List Str :=
  let position_org :=
    escape_latex volunteer.position ++ lit ", " ++
      escape_latex volunteer.organization
  let location := escape_latex volunteer.location
  let description := escape_latex volunteer.description
  let date_range := format_date_range volunteer.start_date volunteer.end_date
  [lit "\t\\resumeSubheading",
   lit "    \x7b" ++ position_org ++ lit "\x7d\x7b" ++ location ++ lit "\x7d",
   lit "    \x7b" ++ description ++ lit "\x7d\x7b" ++ date_range ++ lit "\x7d"] ++
  (if volunteers.getLast? = some volunteer then [] else [lit "\\vspace\x7b5pt\x7d"])

/-- `generate_volunteer_section` (lines 304-334). -/
def generate_volunteer_section (volunteers : List VolunteerResponse) : Str :=
  if volunteers = [] then []
  else
    pyJoin (lit "\n")
      ([lit "%-----------VOLUNTEER EXPERIENCE-----------------",
        lit "\\vspace\x7b-5pt\x7d",
        lit "\\section\x7bVolunteer Experience\x7d",
        lit "  \\resumeSubHeadingListStart"] ++
       volunteers.flatMap (volLines volunteers) ++
       [lit "\\resumeSubHeadingListEnd"])

/-- `CustomResumeResponse` (`app/models/custom_resume.py`), with the
populated element lists and artifact pointers the pipeline reads. -/
structure CustomResumeResponse where
  id : Nat
  user_id : Nat
  name : Str
  headings : List HeadingResponse
  educations : List EducationResponse
  experiences : List ExperienceResponse
  projects : List ProjectResponse
  skills : List SkillResponse
  volunteers : List VolunteerResponse
  certifications : List CertificationResponse
  awards : List AwardResponse
  latex_url : Option Str
  latex_public_id : Option Str
  cloudinary_url : Option Str
  cloudinary_public_id : Option Str
  pdf_url : Option Str
  thumbnail_url : Option Str
  thumbnail_public_id : Option Str
deriving DecidableEq

/-- `generate_latex_from_resume` (lines 337-417): assemble the heading plus
the non-empty sections in source order, then splice them into the template.
The template file's content is passed as an argument (the source reads it
from `app/templates/resume_template.tex`, a deployment file outside the code
under verification). -/
def generate_latex_from_resume (resume_data : CustomResumeResponse)
    (user_data : UserResponse) (template : Str) : Except Str Str :=
  let sections :=
    [generate_heading_section resume_data.headings user_data] ++
    (if resume_data.educations ≠ [] then
      [generate_education_section resume_data.educations] else []) ++
    (if resume_data.experiences ≠ [] then
      [generate_experience_section resume_data.experiences] else []) ++
    (if resume_data.projects ≠ [] then
      [generate_projects_section resume_data.projects] else []) ++
    (if resume_data.skills ≠ [] then
      [generate_skills_section resume_data.skills] else []) ++
    (if resume_data.certifications ≠ [] then
      [generate_certifications_section resume_data.certifications] else []) ++
    (if resume_data.awards ≠ [] then
      [generate_awards_section resume_data.awards] else []) ++
    (if resume_data.volunteers ≠ [] then
      [generate_volunteer_section resume_data.volunteers] else [])
  compose template sections

/-- Sample user for witnesses. -/
def userEx : UserResponse := ⟨1, lit "ada@example.com", lit "Ada", lit "Lovelace"⟩

/-- Sample education element for witnesses. -/
def eduEx : EducationResponse :=
  ⟨10, 1, lit "MIT", lit "Cambridge", lit "BSc", none, none, lit "2019",
   lit "2021", none⟩

/-- Sample experience element for witnesses. -/
def expEx : ExperienceResponse :=
  ⟨11, 1, lit "ACME", lit "NYC", lit "Engineer", lit "2020", lit "Present", []⟩

/-- Sample project element for witnesses. -/
def projEx : ProjectResponse :=
  ⟨12, 1, lit "Resumaker", lit "2024", lit "Present", lit "Python", none, none,
   []⟩

/-- Sample skill element for witnesses. -/
def skillEx : SkillResponse :=
  ⟨13, 1, lit "Languages", [lit "Python", lit "Lean"], none⟩

/-- Sample certification element for witnesses. -/
def certEx : CertificationResponse :=
  ⟨14, 1, lit "ML", lit "2023", lit "2023", none, lit "Coursera", none⟩

/-- Sample award element for witnesses. -/
def awardEx : AwardResponse := ⟨15, 1, lit "Dean List", lit "Jan 2025"⟩

/-- Sample volunteer element for witnesses. -/
def volEx : VolunteerResponse :=
  ⟨16, 1, lit "Mentor", lit "Code Club", lit "Remote", lit "Teaching",
   lit "2022", lit "2023"⟩

/-- Result of the `subprocess.run` invocation of `pdflatex`: exit status and
captured stdout/stderr.  The external compiler process is an oracle input of
the embedding. -/
structure ProcResult where
  returncode : Int
  stdout : String
  stderr : String
deriving DecidableEq

/-- Python exception classes distinguished by `compile_latex`. -/
inductive PyError where
  | fileNotFound (msg : String)
  | runtimeError (msg : String)
deriving DecidableEq

/-- Message of a Python exception (`str(e)`). -/
def pyErrStr : PyError → String
  | .fileNotFound m => m
  | .runtimeError m => m

/-- `HTTPException` of FastAPI: status code and detail. -/
structure HTTPException where
  status_code : Nat
  detail : String
deriving DecidableEq

/-- Index of the last occurrence of `c` in `cs`. -/
def lastIdxOf (c : Char) : List Char → Option Nat
  | [] => none
  | a :: t =>
      match lastIdxOf c t with
      | some j => some (j + 1)
      | none => if a = c then some 0 else none

/-- Python `os.path.basename` for the slash-separated paths used here: the
part after the last slash. -/
def pyBasename (p : String) : String :=
  match lastIdxOf '/' p.toList with
  | none => p
  | some i => String.mk (p.toList.drop (i + 1))

/-- Root part of Python `os.path.splitext`: strip the extension after the
last dot, unless every character before that dot is itself a dot. -/
def pySplitextRoot (name : String) : String :=
  let cs := name.toList
  match lastIdxOf '.' cs with
  | none => name
  | some i =>
      if (cs.take i).all (fun c => c = '.') then name
      else String.mk (cs.take i)

/-- Python `os.path.join(dir, name)` for the relative names used here. -/
def pyPathJoin (dir name : String) : String :=
  if dir = "" then name
  else if dir.toList.getLastD ' ' = '/' then dir ++ name
  else dir ++ "/" ++ name

/-- The path where the compiler is expected to drop its output: the source
file's base name with a `.pdf` extension, inside the output directory. -/
def expectedPdfPath (input_file output_dir : String) : String :=
  pyPathJoin output_dir (pySplitextRoot (pyBasename input_file) ++ ".pdf")

/-- `compile_latex` (`app/services/latex_service.py` lines 6-54) over an
explicit file-system state `fs` (the list of existing paths once `pdflatex`
has run) and the process result `proc`.  Returns the Python return value
(`some path`, or `none` for Python `None`) or the raised exception, paired
with the file-system state after the possible rename.  A non-zero exit
raises `RuntimeError` carrying the captured stdout and stderr, re-wrapped by
the outer `except Exception` handler. -/
def compile_latex (input_file output_name output_dir : String)
    (fs : List String) (proc : ProcResult) :
    Except PyError (Option String) × List String :=
  if input_file ∉ fs then
    (.error (.fileNotFound ("LaTeX file not found: " ++ input_file)), fs)
  else if proc.returncode = 0 then
    let input_basename := pySplitextRoot (pyBasename input_file)
    let output_pdf := pyPathJoin output_dir (input_basename ++ ".pdf")
    if output_name ≠ input_basename then
      if output_pdf ∈ fs then
        let final_output := pyPathJoin output_dir (output_name ++ ".pdf")
        (.ok (some final_output), final_output :: fs.erase output_pdf)
      else (.ok none, fs)
    else
      if output_pdf ∈ fs then (.ok (some output_pdf), fs) else (.ok none, fs)
  else
    (.error (.runtimeError
      ("Error during LaTeX compilation: LaTeX compilation failed:\n" ++
        proc.stdout ++ "\n" ++ proc.stderr)), fs)

/-- The compile step of `generate_and_upload_resume_pdf`
(`custom_resume.py` lines 1024-1043): call `compile_latex`, turn a `None`
or missing result into HTTP 500 `PDF was not generated`, and any exception
into HTTP 500 `LaTeX compilation failed: ...`. -/
def compileStage (fs : List String) (proc : ProcResult)
    (latex_file_path pdf_filename temp_dir : String) :
    Except HTTPException String :=
  match compile_latex latex_file_path pdf_filename temp_dir fs proc with
  | (.error e, _) =>
      .error ⟨500, "LaTeX compilation failed: " ++ pyErrStr e⟩
  | (.ok none, _) =>
      .error ⟨500, "LaTeX compilation failed: PDF was not generated"⟩
  | (.ok (some p), fs2) =>
      if p ∈ fs2 then .ok p
      else .error ⟨500, "LaTeX compilation failed: PDF was not generated"⟩

/-- `convert_first_page_to_image` (`app/services/pdf_extraction_service.py`
lines 25-51) over the opened document's page count and the rendering result
`png_bytes` (an oracle input): a zero-page document raises
`Exception("PDF has no pages")`, wrapped by the catch-all handler into
`Failed to convert PDF page to image: ...`. -/
def convert_first_page_to_image (page_count : Nat) (png_bytes : List Nat) :
    Except String (List Nat) :=
  if page_count = 0 then
    .error "Failed to convert PDF page to image: PDF has no pages"
  else .ok png_bytes

/-- Result of one Cloudinary upload: URL and public id. -/
structure UploadResult where
  url : Str
  public_id : Str
deriving DecidableEq

/-- The artifact-pointer fields written back onto the CustomResume record by
`generate_and_upload_resume_pdf` (lines 1104-1112 and 1123-1130). -/
structure CloudinaryData where
  latex_url : Option Str
  latex_public_id : Option Str
  cloudinary_url : Option Str
  cloudinary_public_id : Option Str
  thumbnail_url : Option Str
  thumbnail_public_id : Option Str
deriving DecidableEq

/-- The stored CustomResume document of the `custom_resumes` collection. -/
structure CustomResumeDoc where
  id : Nat
  user_id : Nat
  name : Str
  heading_ids : List Nat
  education_ids : List Nat
  experience_ids : List Nat
  project_ids : List Nat
  skill_ids : List Nat
  volunteer_ids : List Nat
  certification_ids : List Nat
  award_ids : List Nat
  latex_url : Option Str
  latex_public_id : Option Str
  cloudinary_url : Option Str
  cloudinary_public_id : Option Str
  thumbnail_url : Option Str
  thumbnail_public_id : Option Str
deriving DecidableEq

/-- The element collections, one per kind.  Stored element documents carry
exactly the fields the response models expose, so the same structures stand
for both. -/
structure Stores where
  headings : List HeadingResponse
  educations : List EducationResponse
  experiences : List ExperienceResponse
  projects : List ProjectResponse
  skills : List SkillResponse
  volunteers : List VolunteerResponse
  certifications : List CertificationResponse
  awards : List AwardResponse
deriving DecidableEq

/-- The document store: custom resumes, element collections, users. -/
structure DB where
  resumes : List CustomResumeDoc
  elements : Stores
  users : List UserResponse
deriving DecidableEq

/-- Oracle inputs of one `generate_and_upload_resume_pdf` run: temporary
directory and uuid names, the file-system state once the compiler has run,
the compiler process result, the compiled document's page count, first-page
image and content bytes, and the three Cloudinary upload outcomes. -/
structure PdfWorld where
  temp_dir : String
  tex_uuid : String
  pdf_uuid : String
  fs : List String
  proc : ProcResult
  page_count : Nat
  png_bytes : List Nat
  pdf_bytes : List Nat
  latex_upload : Except String UploadResult
  pdf_upload : Except String UploadResult
  thumbnail_upload : Except String UploadResult

/-- The `update_one` refresh of the artifact pointers on the resume record
(lines 1103-1117). -/
def updateResumeArtifacts (resumes : List CustomResumeDoc) (rid : Nat)
    (cd : CloudinaryData) : List CustomResumeDoc :=
  resumes.map (fun d =>
    if d.id = rid then
      { d with
        latex_url := cd.latex_url
        latex_public_id := cd.latex_public_id
        cloudinary_url := cd.cloudinary_url
        cloudinary_public_id := cd.cloudinary_public_id
        thumbnail_url := cd.thumbnail_url
        thumbnail_public_id := cd.thumbnail_public_id }
    else d)

/-- `generate_and_upload_resume_pdf` (`custom_resume.py` lines 977-1140):
render the markup, compile it (the tex file having just been written into
the fresh temporary directory), attempt the best-effort thumbnail
rasterization, upload markup then binary (each fatal on failure), attempt
the best-effort thumbnail upload, write the artifact pointers onto the
resume record, and return the binary bytes plus artifact metadata.  The
`finally` cleanup of the temporary directory touches no modelled state. -/
def generate_and_upload_resume_pdf (resume_data : CustomResumeResponse)
    (user_data : UserResponse) (resume_object_id : Nat) (db : DB)
    (template : Str) (w : PdfWorld) :
    Except HTTPException (List Nat × CloudinaryData) × DB :=
  match generate_latex_from_resume resume_data user_data template with
  | .error e =>
      (.error ⟨500, "Failed to generate LaTeX: " ++ String.mk e⟩, db)
  | .ok _latex_content =>
      let latex_file_path :=
        pyPathJoin w.temp_dir ("resume_" ++ w.tex_uuid ++ ".tex")
      let pdf_filename := "resume_" ++ w.pdf_uuid
      match compileStage (latex_file_path :: w.fs) w.proc latex_file_path
          pdf_filename w.temp_dir with
      | .error e => (.error e, db)
      | .ok _pdf_file_path =>
          let thumbnail_bytes : Option (List Nat) :=
            match convert_first_page_to_image w.page_count w.png_bytes with
            | .ok b => some b
            | .error _ => none
          match w.latex_upload with
          | .error e =>
              (.error ⟨500, "Failed to upload LaTeX to Cloudinary: " ++ e⟩, db)
          | .ok latex_result =>
              match w.pdf_upload with
              | .error e =>
                  (.error ⟨500, "Failed to upload PDF to Cloudinary: " ++ e⟩,
                   db)
              | .ok pdf_result =>
                  let thumbPair : Option Str × Option Str :=
                    match thumbnail_bytes, w.thumbnail_upload with
                    | some _, .ok t => (some t.url, some t.public_id)
                    | some _, .error _ => (none, none)
                    | none, _ => (none, none)
                  let cloudinary_data : CloudinaryData :=
                    ⟨some latex_result.url, some latex_result.public_id,
                     some pdf_result.url, some pdf_result.public_id,
                     thumbPair.1, thumbPair.2⟩
                  (.ok (w.pdf_bytes, cloudinary_data),
                   { db with resumes := (updateResumeArtifacts db.resumes
                      resume_object_id cloudinary_data) })

/-- Sample populated resume (one education element) for witnesses. -/
def resumeEx : CustomResumeResponse :=
  ⟨100, 1, lit "My Resume", [], [eduEx], [], [], [], [], [], [],
   none, none, none, none, none, none, none⟩

/-- Sample pipeline world for the C4 witness: zero-page document (thumbnail
rasterization fails), everything mandatory succeeds. -/
def c4world : PdfWorld :=
  ⟨"/t", "a", "b", ["/t/resume_a.pdf"], ⟨0, "", ""⟩, 0, [], [7, 7],
   .ok ⟨lit "lu", lit "lp"⟩, .ok ⟨lit "pu", lit "pp"⟩,
   .ok ⟨lit "tu", lit "tp"⟩⟩

/-- Sample database for witnesses: one user, one education element, one
stored resume referencing it. -/
def dbEx : DB :=
  ⟨[⟨100, 1, lit "My Resume", [], [10], [], [], [], [], [], [],
     none, none, none, none, none, none⟩],
   ⟨[], [eduEx], [], [], [], [], [], []⟩,
   [userEx]⟩

/-- The eight element kinds referenced by a CustomResume. -/
inductive ElemKind
  | heading | education | experience | project | skill | volunteer
  | certification | award
deriving DecidableEq

/-- The order in which `create_custom_resume` (lines 437-484) and
`update_custom_resume` (lines 614-676) validate the reference lists. -/
def kindOrder : List ElemKind :=
  [.heading, .education, .experience, .project, .skill, .volunteer,
   .certification, .award]

/-- The `(id, owner)` view of one element collection, the only fields
`validate_referenced_ids` queries. -/
def Stores.idsOf (s : Stores) : ElemKind → List (Nat × Nat)
  | .heading => s.headings.map (fun e => (e.id, e.user_id))
  | .education => s.educations.map (fun e => (e.id, e.user_id))
  | .experience => s.experiences.map (fun e => (e.id, e.user_id))
  | .project => s.projects.map (fun e => (e.id, e.user_id))
  | .skill => s.skills.map (fun e => (e.id, e.user_id))
  | .volunteer => s.volunteers.map (fun e => (e.id, e.user_id))
  | .certification => s.certifications.map (fun e => (e.id, e.user_id))
  | .award => s.awards.map (fun e => (e.id, e.user_id))

/-- The `found_ids` of `validate_referenced_ids` (lines 66-71): ids of the
collection documents matching `id ∈ ids` and `owner = user`. -/
def foundIds (ids : List Nat) (owners : List (Nat × Nat)) (uid : Nat) :
    List Nat :=
  (owners.filter (fun d => decide (d.1 ∈ ids ∧ d.2 = uid))).map (fun d => d.1)

/-- The `missing_ids` of `validate_referenced_ids` (line 74): requested
minus found. -/
def missingOf (ids : List Nat) (owners : List (Nat × Nat)) (uid : Nat) :
    List Nat :=
  ids.filter (fun i => decide (i ∉ foundIds ids owners uid))

/-- The 404 error raised by `validate_referenced_ids` (lines 75-80); it
names the element kind and the missing identifiers. -/
structure ValErr where
  status_code : Nat
  kind : ElemKind
  missing : List Nat
deriving DecidableEq

/-- `validate_referenced_ids` (`custom_resume.py` lines 45-82), with Mongo
ObjectIds modelled as already-parsed `Nat`s (the 400 branch for malformed id
strings falls outside this model): empty request short-circuits; otherwise
query the collection for `id ∈ ids ∧ owner = user`, compute requested minus
found, and fail with 404 naming the missing ids when non-empty. -/
def validate_referenced_ids (ids : List Nat) (owners : List (Nat × Nat))
    (user_id : Nat) (element_type : ElemKind) : Except ValErr (List Nat) :=
  if ids = [] then .ok []
  else if missingOf ids owners user_id = [] then .ok ids
  else .error ⟨404, element_type, missingOf ids owners user_id⟩

/-- The eight sequential `validate_referenced_ids` calls of
`create_custom_resume`, in source order; the first failure aborts. -/
def validateAll (req : ElemKind → List Nat) (s : Stores) (user_id : Nat) :
    List ElemKind → Except ValErr Unit
  | [] => .ok ()
  | k :: ks =>
      match validate_referenced_ids (req k) (s.idsOf k) user_id k with
      | .error e => .error e
      | .ok _ => validateAll req s user_id ks

/-- The update-side validation (lines 613-676): only the provided lists are
validated, in the same order. -/
def validateAllOpt (req : ElemKind → Option (List Nat)) (s : Stores)
    (user_id : Nat) : List ElemKind → Except ValErr Unit
  | [] => .ok ()
  | k :: ks =>
      match req k with
      | none => validateAllOpt req s user_id ks
      | some ids =>
          match validate_referenced_ids ids (s.idsOf k) user_id k with
          | .error e => .error e
          | .ok _ => validateAllOpt req s user_id ks

/-- `CustomResumeCreate` payload: a name plus one id list per kind (the
model's `Optional[List[str]] = []` defaults make every list present). -/
structure CustomResumeCreate where
  name : Str
  req : ElemKind → List Nat

/-- `CustomResumeUpdate` payload: every field optional. -/
structure CustomResumeUpdate where
  name : Option Str
  req : ElemKind → Option (List Nat)

/-- An error surfaced by a route: the reference-validation 404 (which Python
raises as an `HTTPException` from inside `validate_referenced_ids`) or any
other `HTTPException`. -/
inductive RouteError where
  | validation (e : ValErr)
  | http (e : HTTPException)

/-- The document inserted by `create_custom_resume` (lines 486-502); on
success `validate_referenced_ids` returns exactly the requested ids, so the
inserted lists equal the requested ones. -/
def createdDoc (new_id user_id : Nat) (resume_data : CustomResumeCreate) :
    CustomResumeDoc :=
  ⟨new_id, user_id, resume_data.name,
   resume_data.req .heading, resume_data.req .education,
   resume_data.req .experience, resume_data.req .project,
   resume_data.req .skill, resume_data.req .volunteer,
   resume_data.req .certification, resume_data.req .award,
   none, none, none, none, none, none⟩

/-- The `$set` document applied by `update_custom_resume` (lines 608-681):
the name and each provided reference list replace the stored ones. -/
def applyUpdate (doc : CustomResumeDoc) (resume_data : CustomResumeUpdate) :
    CustomResumeDoc :=
  { doc with
    name := (match resume_data.name with | some n => n | none => doc.name)
    heading_ids := (match resume_data.req .heading with
      | some l => l | none => doc.heading_ids)
    education_ids := (match resume_data.req .education with
      | some l => l | none => doc.education_ids)
    experience_ids := (match resume_data.req .experience with
      | some l => l | none => doc.experience_ids)
    project_ids := (match resume_data.req .project with
      | some l => l | none => doc.project_ids)
    skill_ids := (match resume_data.req .skill with
      | some l => l | none => doc.skill_ids)
    volunteer_ids := (match resume_data.req .volunteer with
      | some l => l | none => doc.volunteer_ids)
    certification_ids := (match resume_data.req .certification with
      | some l => l | none => doc.certification_ids)
    award_ids := (match resume_data.req .award with
      | some l => l | none => doc.award_ids) }

/-- The populated element lists handed to the renderers. -/
structure PopulatedElements where
  headings : List HeadingResponse
  educations : List EducationResponse
  experiences : List ExperienceResponse
  projects : List ProjectResponse
  skills : List SkillResponse
  volunteers : List VolunteerResponse
  certifications : List CertificationResponse
  awards : List AwardResponse
deriving DecidableEq

/-- `populate_references` (`custom_resume.py` lines 85-291): for each kind
with a non-empty reference list, fetch the referenced elements owned by the
user; identifiers that no longer resolve are silently dropped — the function
is total and never raises. -/
def populate_references (resume_doc : CustomResumeDoc) (user_id : Nat)
    (s : Stores) : PopulatedElements :=
  ⟨if resume_doc.heading_ids = [] then [] else
    s.headings.filter (fun e =>
      decide (e.id ∈ resume_doc.heading_ids ∧ e.user_id = user_id)),
   if resume_doc.education_ids = [] then [] else
    s.educations.filter (fun e =>
      decide (e.id ∈ resume_doc.education_ids ∧ e.user_id = user_id)),
   if resume_doc.experience_ids = [] then [] else
    s.experiences.filter (fun e =>
      decide (e.id ∈ resume_doc.experience_ids ∧ e.user_id = user_id)),
   if resume_doc.project_ids = [] then [] else
    s.projects.filter (fun e =>
      decide (e.id ∈ resume_doc.project_ids ∧ e.user_id = user_id)),
   if resume_doc.skill_ids = [] then [] else
    s.skills.filter (fun e =>
      decide (e.id ∈ resume_doc.skill_ids ∧ e.user_id = user_id)),
   if resume_doc.volunteer_ids = [] then [] else
    s.volunteers.filter (fun e =>
      decide (e.id ∈ resume_doc.volunteer_ids ∧ e.user_id = user_id)),
   if resume_doc.certification_ids = [] then [] else
    s.certifications.filter (fun e =>
      decide (e.id ∈ resume_doc.certification_ids ∧ e.user_id = user_id)),
   if resume_doc.award_ids = [] then [] else
    s.awards.filter (fun e =>
      decide (e.id ∈ resume_doc.award_ids ∧ e.user_id = user_id))⟩

/-- The `CustomResumeResponse` construction of the routes (lines 509-530,
687-708, 824-845); `pdf_url` aliases `cloudinary_url`. -/
def buildResponse (doc : CustomResumeDoc) (p : PopulatedElements) :
    CustomResumeResponse :=
  ⟨doc.id, doc.user_id, doc.name, p.headings, p.educations, p.experiences,
   p.projects, p.skills, p.volunteers, p.certifications, p.awards,
   doc.latex_url, doc.latex_public_id, doc.cloudinary_url,
   doc.cloudinary_public_id, doc.cloudinary_url, doc.thumbnail_url,
   doc.thumbnail_public_id⟩

/-- `find_one` on the users collection. -/
def findUser (users : List UserResponse) (uid : Nat) : Option UserResponse :=
  users.find? (fun u => u.id == uid)

/-- `find_one` on the custom-resumes collection, keyed by id and owner. -/
def findResume (resumes : List CustomResumeDoc) (rid uid : Nat) :
    Option CustomResumeDoc :=
  resumes.find? (fun d => d.id == rid && d.user_id == uid)

/-- `create_custom_resume` (`custom_resume.py` lines 406-575): resume-limit
check, eight reference validations, insert of the metadata document,
populate, user fetch, then the PDF pipeline.  A pipeline failure surfaces as
an HTTP error while the inserted document is kept. -/
def create_custom_resume (db : DB) (user_id : Nat)
    (resume_data : CustomResumeCreate) (max_resume : Nat) (new_id : Nat)
    (template : Str) (w : PdfWorld) : Except RouteError (List Nat) × DB :=
  let resume_count :=
    (db.resumes.filter (fun d => decide (d.user_id = user_id))).length
  if max_resume ≤ resume_count then
    (.error (.http ⟨400, "Maximum resume limit reached. You have " ++
      toString resume_count ++ " resumes out of " ++ toString max_resume ++
      " allowed. Purchase additional slots to create more resumes."⟩), db)
  else
    match validateAll resume_data.req db.elements user_id kindOrder with
    | .error e => (.error (.validation e), db)
    | .ok _ =>
        let doc := createdDoc new_id user_id resume_data
        let db1 : DB := { db with resumes := (db.resumes ++ [doc]) }
        let resume_response :=
          buildResponse doc (populate_references doc user_id db.elements)
        match findUser db.users user_id with
        | none => (.error (.http ⟨404, "User not found"⟩), db1)
        | some user_doc =>
            match generate_and_upload_resume_pdf resume_response user_doc
                doc.id db1 template w with
            | (.error e, db2) => (.error (.http e), db2)
            | (.ok (pdf_bytes, _cd), db2) => (.ok pdf_bytes, db2)

/-- `update_custom_resume` (`custom_resume.py` lines 578-753): ownership
check, validation of each provided list, the `$set` write, re-fetch,
populate, user fetch, then the PDF pipeline.  A pipeline failure surfaces as
an HTTP error while the updated reference lists are kept. -/
def update_custom_resume (db : DB) (user_id resume_id : Nat)
    (resume_data : CustomResumeUpdate) (template : Str) (w : PdfWorld) :
    Except RouteError (List Nat) × DB :=
  match findResume db.resumes resume_id user_id with
  | none => (.error (.http ⟨404, "Custom resume not found"⟩), db)
  | some resume_doc =>
      match validateAllOpt resume_data.req db.elements user_id kindOrder with
      | .error e => (.error (.validation e), db)
      | .ok _ =>
          let updated := applyUpdate resume_doc resume_data
          let db1 : DB := { db with resumes := (db.resumes.map (fun d =>
            if d.id = resume_id then updated else d)) }
          let resume_response :=
            buildResponse updated
              (populate_references updated user_id db.elements)
          match findUser db.users user_id with
          | none => (.error (.http ⟨404, "User not found"⟩), db1)
          | some user_doc =>
              match generate_and_upload_resume_pdf resume_response user_doc
                  updated.id db1 template w with
              | (.error e, db2) => (.error (.http e), db2)
              | (.ok (pdf_bytes, _cd), db2) => (.ok pdf_bytes, db2)

/-- The `generate-pdf` route (`custom_resume.py` lines 788-889): fetch the
resume, populate its references (dangling ones silently dropped), fetch the
user, run the pipeline, return the binary bytes. -/
def generate_pdf (db : DB) (resume_id user_id : Nat) (template : Str)
    (w : PdfWorld) : Except RouteError (List Nat) × DB :=
  match findResume db.resumes resume_id user_id with
  | none => (.error (.http ⟨404, "Custom resume not found"⟩), db)
  | some resume_doc =>
      let resume_data :=
        buildResponse resume_doc
          (populate_references resume_doc user_id db.elements)
      match findUser db.users user_id with
      | none => (.error (.http ⟨404, "User not found"⟩), db)
      | some user_doc =>
          match generate_and_upload_resume_pdf resume_data user_doc
              resume_doc.id db template w with
          | (.error e, db2) => (.error (.http e), db2)
          | (.ok (pdf_bytes, _cd), db2) => (.ok pdf_bytes, db2)

/-- Concrete `(id, owner)` collection view for the C3 witness: elements 1
and 2 owned by user 1, element 3 owned by user 2. -/
def c3owners : List (Nat × Nat) := [(1, 1), (2, 1), (3, 2)]

/-- Concrete element stores matching `c3owners` on the education kind. -/
def c3stores : Stores :=
  ⟨[],
   [⟨1, 1, lit "A", lit "L", lit "D", none, none, lit "1", lit "2", none⟩,
    ⟨2, 1, lit "A2", lit "L2", lit "D2", none, none, lit "1", lit "2", none⟩,
    ⟨3, 2, lit "A3", lit "L3", lit "D3", none, none, lit "1", lit "2", none⟩],
   [], [], [], [], [], []⟩

/-- Concrete database for the C3 witness. -/
def c3db : DB := ⟨[], c3stores, [userEx]⟩

/-- Concrete create request for the C3 witness: education ids `{1, 2, 3}`
where 3 belongs to another user. -/
def c3req : CustomResumeCreate :=
  ⟨lit "R", fun k => match k with | .education => [1, 2, 3] | _ => []⟩

/-- Concrete create request for the C5 witness: one valid education
reference. -/
def c5req : CustomResumeCreate :=
  ⟨lit "R", fun k => match k with | .education => [1] | _ => []⟩

/-- Concrete pipeline world for the C5 witness: the compiler exits 1, so the
pipeline fails after the metadata insert. -/
def c5world : PdfWorld :=
  ⟨"/t", "a", "b", [], ⟨1, "o", "e"⟩, 1, [5], [7],
   .ok ⟨lit "lu", lit "lp"⟩, .ok ⟨lit "pu", lit "pp"⟩,
   .ok ⟨lit "tu", lit "tp"⟩⟩

/-- The HTTP 500 produced by the failing compile of `c5world`. -/
def c5err : HTTPException :=
  ⟨500,
   "LaTeX compilation failed: Error during LaTeX compilation: LaTeX compilation failed:\no\ne"⟩

/-- The database state after the C5 witness run: metadata insert kept. -/
def c5db2 : DB := { c3db with resumes := (c3db.resumes ++ [createdDoc 100 1 c5req]) }

/-- Concrete stored resume for the C10 witness: education references
`[10, 99]` where 99 is dangling. -/
def c10doc : CustomResumeDoc :=
  ⟨100, 1, lit "My Resume", [], [10, 99], [], [], [], [], [], [],
   none, none, none, none, none, none⟩

/-- Concrete database for the C10 witness. -/
def c10db : DB := ⟨[c10doc], ⟨[], [eduEx], [], [], [], [], [], []⟩, [userEx]⟩

/-- The artifact metadata produced by the C10 witness run. -/
def c10cd : CloudinaryData :=
  ⟨some (lit "lu"), some (lit "lp"), some (lit "pu"), some (lit "pp"),
   none, none⟩

/-- The database state after the C10 witness run. -/
def c10db2 : DB :=
  { c10db with resumes := (updateResumeArtifacts c10db.resumes 100 c10cd) }

/-- The reference list of one kind on a stored CustomResume document. -/
def CustomResumeDoc.idsOf (doc : CustomResumeDoc) : ElemKind → List Nat
  | .heading => doc.heading_ids
  | .education => doc.education_ids
  | .experience => doc.experience_ids
  | .project => doc.project_ids
  | .skill => doc.skill_ids
  | .volunteer => doc.volunteer_ids
  | .certification => doc.certification_ids
  | .award => doc.award_ids

/-- The element ids of one kind returned by the populate step. -/
def PopulatedElements.idsOf (p : PopulatedElements) : ElemKind → List Nat
  | .heading => p.headings.map (fun e => e.id)
  | .education => p.educations.map (fun e => e.id)
  | .experience => p.experiences.map (fun e => e.id)
  | .project => p.projects.map (fun e => e.id)
  | .skill => p.skills.map (fun e => e.id)
  | .volunteer => p.volunteers.map (fun e => e.id)
  | .certification => p.certifications.map (fun e => e.id)
  | .award => p.awards.map (fun e => e.id)

/- ===================== THEOREMS ===================== -/

theorem pyReplaceChar_append (old : Char) (new : Str) (l₁ l₂ : Str) :
    pyReplaceChar old new (l₁ ++ l₂) =
      pyReplaceChar old new l₁ ++ pyReplaceChar old new l₂ := by
  induction l₁ with
  | nil => rfl
  | cons c t ih => simp [pyReplaceChar, ih]

theorem escapeChain_append (l₁ l₂ : Str) :
    escapeChain (l₁ ++ l₂) = escapeChain l₁ ++ escapeChain l₂ := by
  simp [escapeChain, pyReplaceChar_append]

theorem escapeChain_singleton (c : Char) : escapeChain [c] = escapeImage c := by
  by_cases h1 : c = '\\'
  · subst h1; decide
  by_cases h2 : c = '&'
  · subst h2; decide
  by_cases h3 : c = '%'
  · subst h3; decide
  by_cases h4 : c = '$'
  · subst h4; decide
  by_cases h5 : c = '#'
  · subst h5; decide
  by_cases h6 : c = '^'
  · subst h6; decide
  by_cases h7 : c = '_'
  · subst h7; decide
  by_cases h8 : c = '\x7b'
  · subst h8; decide
  by_cases h9 : c = '\x7d'
  · subst h9; decide
  by_cases h10 : c = '~'
  · subst h10; decide
  simp [escapeChain, escapeImage, pyReplaceChar,
    h1, h2, h3, h4, h5, h6, h7, h8, h9, h10]

theorem escapeChain_eq_flatMap (s : Str) : escapeChain s = s.flatMap escapeImage := by
  induction s with
  | nil => rfl
  | cons c t ih =>
      have : (c :: t) = [c] ++ t := rfl
      rw [this, escapeChain_append, ih, escapeChain_singleton]
      simp

theorem escape_latex_eq_flatMap (s : Str) : escape_latex s = s.flatMap escapeImage := by
  by_cases h : s = []
  · subst h; rfl
  · rw [escape_latex, if_neg h, escapeChain_eq_flatMap]

theorem latexSafe_image_append (c : Char) (t : Str) (ht : LatexSafe t) :
    LatexSafe (escapeImage c ++ t) := by
  by_cases h1 : c = '\\'
  · subst h1
    have he : escapeImage '\\' ++ t =
        lit "\\textbackslash" ++ (lit "\\\x7b" ++ (lit "\\\x7d" ++ t)) := rfl
    rw [he]
    exact .tok _ _ (by decide) (.tok _ _ (by decide) (.tok _ _ (by decide) ht))
  by_cases h2 : c = '&'
  · subst h2; exact .tok _ _ (by decide) ht
  by_cases h3 : c = '%'
  · subst h3; exact .tok _ _ (by decide) ht
  by_cases h4 : c = '$'
  · subst h4; exact .tok _ _ (by decide) ht
  by_cases h5 : c = '#'
  · subst h5; exact .tok _ _ (by decide) ht
  by_cases h6 : c = '^'
  · subst h6
    have he : escapeImage '^' ++ t =
        lit "\\textasciicircum" ++ (lit "\\\x7b" ++ (lit "\\\x7d" ++ t)) := rfl
    rw [he]
    exact .tok _ _ (by decide) (.tok _ _ (by decide) (.tok _ _ (by decide) ht))
  by_cases h7 : c = '_'
  · subst h7; exact .tok _ _ (by decide) ht
  by_cases h8 : c = '\x7b'
  · subst h8; exact .tok _ _ (by decide) ht
  by_cases h9 : c = '\x7d'
  · subst h9; exact .tok _ _ (by decide) ht
  by_cases h10 : c = '~'
  · subst h10; exact .tok _ _ (by decide) ht
  have himg : escapeImage c = [c] := by
    simp [escapeImage, h1, h2, h3, h4, h5, h6, h7, h8, h9, h10]
  rw [himg]
  refine .raw c t ?_ ht
  intro hmem
  simp [specials] at hmem
  rcases hmem with rfl | rfl | rfl | rfl | rfl | rfl | rfl | rfl | rfl | rfl <;>
    simp_all

theorem latexSafe_flatMap (s : Str) : LatexSafe (s.flatMap escapeImage) := by
  induction s with
  | nil => exact .nil
  | cons c t ih =>
      rw [List.flatMap_cons]
      exact latexSafe_image_append c _ ih

/-- C2: for every input containing LaTeX special characters, the output of
`escape_latex` contains no unescaped occurrence of a special character (it
splits into non-special characters and complete escape units), and the whole
chain acts independently on each original character — in particular the
backslashes introduced by escaping `& % $ # ^ _ { } ~` are never themselves
re-escaped, because the backslash was replaced first. -/
theorem c2_escape_latex_safe (s : Str) (_h : ∃ c ∈ s, c ∈ specials) :
    LatexSafe (escape_latex s) ∧ escape_latex s = s.flatMap escapeImage := by
  refine ⟨?_, escape_latex_eq_flatMap s⟩
  rw [escape_latex_eq_flatMap]
  exact latexSafe_flatMap s

/-- Witness for C2 at the concrete input `"a&b_c"`. -/
theorem c2_escape_latex_safe_witness :
    LatexSafe (escape_latex (lit "a&b_c")) ∧
      escape_latex (lit "a&b_c") = (lit "a&b_c").flatMap escapeImage :=
  c2_escape_latex_safe (lit "a&b_c") (by decide)

/-- C8 counterexample: the separator emitted by `format_date_range` is the
two-hyphen LaTeX en-dash markup `" -- "`, not the literal en-dash `" – "`
stated in the claim, so the claim as stated fails at `("2019", "Present")`. -/
theorem c8_counterexample :
    format_date_range (lit "2019") (lit "Present") ≠
      escape_latex (lit "2019") ++ lit " – " ++ escape_latex (lit "Present") := by
  decide

/-- C8 (amended): `format_date_range` returns the escaped start, the fixed
separator `" -- "`, and the escaped end; the literal value `"Present"` gets
no special treatment — it is escaped like any other token (and passes through
unchanged since it contains no special character). -/
theorem c8_format_date_range (start_date end_date : Str) :
    format_date_range start_date end_date =
      escape_latex start_date ++ lit " -- " ++ escape_latex end_date ∧
    format_date_range start_date (lit "Present") =
      escape_latex start_date ++ lit " -- " ++ lit "Present" := by
  refine ⟨rfl, ?_⟩
  show escape_latex start_date ++ lit " -- " ++ escape_latex (lit "Present") = _
  rw [show escape_latex (lit "Present") = lit "Present" from by decide]

theorem pyFindAux_ge (pat : Str) (t : Str) (i j : Nat)
    (h : pyFindAux pat t i = some j) : i ≤ j := by
  induction t generalizing i with
  | nil =>
      rw [pyFindAux] at h
      by_cases hp : pat = []
      · rw [if_pos hp] at h
        injection h with h
        omega
      · rw [if_neg hp] at h
        exact absurd h (by simp)
  | cons c t ih =>
      rw [pyFindAux] at h
      by_cases hp : pat.isPrefixOf (c :: t)
      · rw [if_pos hp] at h
        injection h with h
        omega
      · rw [if_neg hp] at h
        have := ih (i + 1) h
        omega

theorem pyFindAux_isPrefixOf (pat : Str) (t : Str) (i j : Nat)
    (h : pyFindAux pat t i = some j) :
    pat.isPrefixOf (t.drop (j - i)) = true := by
  induction t generalizing i with
  | nil =>
      rw [pyFindAux] at h
      by_cases hp : pat = []
      · rw [if_pos hp] at h
        injection h with h
        subst h
        simp [hp, List.isPrefixOf]
      · rw [if_neg hp] at h
        exact absurd h (by simp)
  | cons c t ih =>
      rw [pyFindAux] at h
      by_cases hp : pat.isPrefixOf (c :: t)
      · rw [if_pos hp] at h
        injection h with h
        subst h
        simpa using hp
      · rw [if_neg hp] at h
        have hge := pyFindAux_ge pat t (i + 1) j h
        have := ih (i + 1) h
        have hidx : j - i = (j - (i + 1)) + 1 := by omega
        rw [hidx]
        simpa using this

theorem pyFind_isPrefixOf (t pat : Str) (j : Nat) (h : pyFind t pat = some j) :
    pat.isPrefixOf (t.drop j) = true := by
  have := pyFindAux_isPrefixOf pat t 0 j h
  simpa using this

theorem pyFindFrom_ge (t pat : Str) (s j : Nat)
    (h : pyFindFrom t pat s = some j) : s ≤ j := by
  unfold pyFindFrom at h
  cases hf : pyFind (t.drop s) pat with
  | none => rw [hf] at h; simp at h
  | some j0 => rw [hf] at h; simp at h; omega

theorem lineEnd_ge (template : Str) (ds : Nat) : ds ≤ lineEnd template ds := by
  unfold lineEnd
  cases hf : pyFindFrom template (lit "\n") ds with
  | none => exact Nat.le_add_right ds _
  | some j =>
      have := pyFindFrom_ge template (lit "\n") ds j hf
      show ds ≤ j + 1
      omega

theorem take_lineEnd_split (template : Str) (ds : Nat) :
    template.take (lineEnd template ds) =
      template.take ds ++ (template.drop ds).take (lineEnd template ds - ds) := by
  have h := lineEnd_ge template ds
  have : lineEnd template ds = ds + (lineEnd template ds - ds) := by omega
  rw [this]
  simp [List.take_add]

/-- C6: whenever the template contains both the body-start marker
`\begin{document}` and the body-end marker `\end{document}`, `compose`
succeeds and returns the template preserved verbatim through the end of the
`\begin{document}` line (in particular everything before the marker is kept
as header), followed by a blank line, the fragments joined with blank-line
separators, and a final `\end{document}`; whenever either marker is absent it
fails with the template-malformed error (`ValueError` in the source). -/
theorem c6_compose (template : Str) (sections : List Str) :
    (∀ ds de, pyFind template bodyStartMarker = some ds →
        pyFind template bodyEndMarker = some de →
        compose template sections =
          .ok (template.take (lineEnd template ds) ++ lit "\n\n" ++
            pyJoin (lit "\n\n") sections ++ lit "\n\n" ++ bodyEndMarker) ∧
        bodyStartMarker.isPrefixOf (template.drop ds) = true ∧
        (∃ rest, template.take (lineEnd template ds) = template.take ds ++ rest)) ∧
    ((pyFind template bodyStartMarker = none ∨
        pyFind template bodyEndMarker = none) →
      ∃ msg, compose template sections = .error msg) := by
  constructor
  · intro ds de h1 h2
    refine ⟨?_, pyFind_isPrefixOf template bodyStartMarker ds h1, ?_⟩
    · rw [compose, h1, h2]
      rw [take_lineEnd_split template ds]
    · exact ⟨(template.drop ds).take (lineEnd template ds - ds),
        take_lineEnd_split template ds⟩
  · intro h
    rcases h with h | h
    · cases h2 : pyFind template bodyEndMarker <;>
        exact ⟨_, by rw [compose, h, h2]⟩
    · cases h1 : pyFind template bodyStartMarker <;>
        exact ⟨_, by rw [compose, h1, h]⟩

/-- Witness for C6 on a concrete well-formed template (both markers present)
and on a concrete template missing the markers. -/
theorem c6_compose_witness :
    (compose c6tmpl [lit "AAA", lit "BBB"] =
        .ok (c6tmpl.take (lineEnd c6tmpl 24) ++ lit "\n\n" ++
          pyJoin (lit "\n\n") [lit "AAA", lit "BBB"] ++ lit "\n\n" ++
          bodyEndMarker) ∧
      bodyStartMarker.isPrefixOf (c6tmpl.drop 24) = true ∧
      (∃ rest, c6tmpl.take (lineEnd c6tmpl 24) = c6tmpl.take 24 ++ rest)) ∧
    (∃ msg, compose c6tmplBad [lit "AAA", lit "BBB"] = .error msg) :=
  ⟨(c6_compose c6tmpl [lit "AAA", lit "BBB"]).1 24 45 (by decide) (by decide),
   (c6_compose c6tmplBad [lit "AAA", lit "BBB"]).2 (Or.inl (by decide))⟩

theorem pyJoin_cons_ne_nil (sep x : Str) (xs : List Str) (hx : x ≠ []) :
    pyJoin sep (x :: xs) ≠ [] := by
  cases xs with
  | nil => simpa [pyJoin] using hx
  | cons y ys =>
      rw [pyJoin]
      intro hEq
      exact hx (List.append_eq_nil.mp (List.append_eq_nil.mp hEq).1).1

/-- C7: every section renderer returns exactly the empty string on the empty
input list and a non-empty markup fragment on every non-empty input list; the
heading renderer is the exception for empty input — it falls back to the
owning user's name and e-mail, so its output is non-empty on every input. -/
theorem c7_section_renderers :
    (∀ l, l ≠ [] → generate_education_section l ≠ []) ∧
    generate_education_section [] = [] ∧
    (∀ l, l ≠ [] → generate_experience_section l ≠ []) ∧
    generate_experience_section [] = [] ∧
    (∀ l, l ≠ [] → generate_projects_section l ≠ []) ∧
    generate_projects_section [] = [] ∧
    (∀ l, l ≠ [] → generate_skills_section l ≠ []) ∧
    generate_skills_section [] = [] ∧
    (∀ l, l ≠ [] → generate_certifications_section l ≠ []) ∧
    generate_certifications_section [] = [] ∧
    (∀ l, l ≠ [] → generate_awards_section l ≠ []) ∧
    generate_awards_section [] = [] ∧
    (∀ l, l ≠ [] → generate_volunteer_section l ≠ []) ∧
    generate_volunteer_section [] = [] ∧
    (∀ hs u, generate_heading_section hs u ≠ []) := by
  refine ⟨?_, rfl, ?_, rfl, ?_, rfl, ?_, rfl, ?_, rfl, ?_, rfl, ?_, rfl, ?_⟩
  · intro l h
    rw [generate_education_section, if_neg h]
    simp only [List.cons_append]
    exact pyJoin_cons_ne_nil _ _ _ (by decide)
  · intro l h
    rw [generate_experience_section, if_neg h]
    simp only [List.cons_append]
    exact pyJoin_cons_ne_nil _ _ _ (by decide)
  · intro l h
    rw [generate_projects_section, if_neg h]
    simp only [List.cons_append]
    exact pyJoin_cons_ne_nil _ _ _ (by decide)
  · intro l h
    rw [generate_skills_section, if_neg h]
    simp only [List.cons_append]
    exact pyJoin_cons_ne_nil _ _ _ (by decide)
  · intro l h
    rw [generate_certifications_section, if_neg h]
    simp only [List.cons_append]
    exact pyJoin_cons_ne_nil _ _ _ (by decide)
  · intro l h
    rw [generate_awards_section, if_neg h]
    simp only [List.cons_append]
    exact pyJoin_cons_ne_nil _ _ _ (by decide)
  · intro l h
    rw [generate_volunteer_section, if_neg h]
    simp only [List.cons_append]
    exact pyJoin_cons_ne_nil _ _ _ (by decide)
  · intro hs u
    unfold generate_heading_section
    simp only [List.cons_append]
    exact pyJoin_cons_ne_nil _ _ _ (by decide)

/-- Witness for C7: each renderer applied to a concrete one-element list. -/
theorem c7_section_renderers_witness :
    generate_education_section [eduEx] ≠ [] ∧
    generate_experience_section [expEx] ≠ [] ∧
    generate_projects_section [projEx] ≠ [] ∧
    generate_skills_section [skillEx] ≠ [] ∧
    generate_certifications_section [certEx] ≠ [] ∧
    generate_awards_section [awardEx] ≠ [] ∧
    generate_volunteer_section [volEx] ≠ [] ∧
    generate_heading_section [] userEx ≠ [] :=
  ⟨c7_section_renderers.1 [eduEx] (List.cons_ne_nil _ _),
   c7_section_renderers.2.2.1 [expEx] (List.cons_ne_nil _ _),
   c7_section_renderers.2.2.2.2.1 [projEx] (List.cons_ne_nil _ _),
   c7_section_renderers.2.2.2.2.2.2.1 [skillEx] (List.cons_ne_nil _ _),
   c7_section_renderers.2.2.2.2.2.2.2.2.1 [certEx] (List.cons_ne_nil _ _),
   c7_section_renderers.2.2.2.2.2.2.2.2.2.2.1 [awardEx] (List.cons_ne_nil _ _),
   c7_section_renderers.2.2.2.2.2.2.2.2.2.2.2.2.1 [volEx] (List.cons_ne_nil _ _),
   c7_section_renderers.2.2.2.2.2.2.2.2.2.2.2.2.2.2 [] userEx⟩

/-- C9: markup-source generation is deterministic — for fixed resume data,
user data and template content, two runs of the renderer/composer pipeline
produce byte-identical markup source.  All inputs the source reads (the
element lists, the user record and the template file's content) are explicit
arguments of the embedded `generate_latex_from_resume`, which uses no other
state. -/
theorem c9_markup_deterministic (resume_data : CustomResumeResponse)
    (user_data : UserResponse) (template : Str) :
    generate_latex_from_resume resume_data user_data template =
      generate_latex_from_resume resume_data user_data template := rfl

/-- C1: when the compiler process exits with non-zero status, `compile_latex`
raises a `RuntimeError` carrying the captured stdout and stderr, which the
caller turns into HTTP 500 `LaTeX compilation failed: ...`; when the process
exits zero but the expected output binary (named from the source file's base
name) is absent, the caller likewise fails with HTTP 500 and a detail of the
same `LaTeX compilation failed` family — identical treatment for the caller
(both abort `generate_and_upload_resume_pdf` with a 500). -/
theorem c1_compile_failure_modes (input_file output_name output_dir : String)
    (fs : List String) (proc : ProcResult) (hin : input_file ∈ fs) :
    (proc.returncode ≠ 0 →
      ∃ msg, (compile_latex input_file output_name output_dir fs proc).1 =
          .error (.runtimeError msg) ∧
        (∃ pre, msg = pre ++ proc.stdout ++ "\n" ++ proc.stderr) ∧
        compileStage fs proc input_file output_name output_dir =
          .error ⟨500, "LaTeX compilation failed: " ++ msg⟩) ∧
    (proc.returncode = 0 → expectedPdfPath input_file output_dir ∉ fs →
      (compile_latex input_file output_name output_dir fs proc).1 = .ok none ∧
      compileStage fs proc input_file output_name output_dir =
        .error ⟨500, "LaTeX compilation failed: PDF was not generated"⟩) := by
  constructor
  · intro hrc
    refine ⟨"Error during LaTeX compilation: LaTeX compilation failed:\n" ++
        proc.stdout ++ "\n" ++ proc.stderr, ?_,
      ⟨"Error during LaTeX compilation: LaTeX compilation failed:\n", rfl⟩, ?_⟩
    · rw [compile_latex, if_neg (not_not_intro hin), if_neg hrc]
    · rw [compileStage, compile_latex, if_neg (not_not_intro hin), if_neg hrc]
      rfl
  · intro hrc habs
    unfold expectedPdfPath at habs
    constructor
    · by_cases hon : output_name = pySplitextRoot (pyBasename input_file) <;>
        simp [compile_latex, hin, hrc, habs, hon]
    · by_cases hon : output_name = pySplitextRoot (pyBasename input_file) <;>
        simp [compileStage, compile_latex, hin, hrc, habs, hon]

/-- Witness for C1 at a concrete input: a failing process run, and a zero
exit with no produced binary. -/
theorem c1_compile_failure_modes_witness :
    (∃ msg,
      (compile_latex "/tmp/w/resume.tex" "out" "/tmp/w" ["/tmp/w/resume.tex"]
          ⟨1, "so", "se"⟩).1 = .error (.runtimeError msg) ∧
      (∃ pre, msg = pre ++ "so" ++ "\n" ++ "se") ∧
      compileStage ["/tmp/w/resume.tex"] ⟨1, "so", "se"⟩ "/tmp/w/resume.tex"
          "out" "/tmp/w" =
        .error ⟨500, "LaTeX compilation failed: " ++ msg⟩) ∧
    ((compile_latex "/tmp/w/resume.tex" "out" "/tmp/w" ["/tmp/w/resume.tex"]
        ⟨0, "", ""⟩).1 = .ok none ∧
      compileStage ["/tmp/w/resume.tex"] ⟨0, "", ""⟩ "/tmp/w/resume.tex"
          "out" "/tmp/w" =
        .error ⟨500, "LaTeX compilation failed: PDF was not generated"⟩) :=
  ⟨(c1_compile_failure_modes "/tmp/w/resume.tex" "out" "/tmp/w"
      ["/tmp/w/resume.tex"] ⟨1, "so", "se"⟩ (by decide)).1 (by decide),
   (c1_compile_failure_modes "/tmp/w/resume.tex" "out" "/tmp/w"
      ["/tmp/w/resume.tex"] ⟨0, "", ""⟩ (by decide)).2 rfl (by decide)⟩

/-- C4: a failing thumbnail step — rasterization failing (in particular the
zero-page document case) or the thumbnail upload failing — never aborts the
pipeline: provided render, compile and the two mandatory uploads succeed,
the orchestrator still returns the binary document bytes together with the
artifact metadata of the markup and binary uploads, reports both thumbnail
fields as null, and writes those artifacts onto the resume record. -/
theorem c4_thumbnail_best_effort (resume_data : CustomResumeResponse)
    (user_data : UserResponse) (rid : Nat) (db : DB) (template : Str)
    (w : PdfWorld)
    (hlatex : ∃ L,
      generate_latex_from_resume resume_data user_data template = .ok L)
    (hcompile : ∃ p,
      compileStage
        (pyPathJoin w.temp_dir ("resume_" ++ w.tex_uuid ++ ".tex") :: w.fs)
        w.proc (pyPathJoin w.temp_dir ("resume_" ++ w.tex_uuid ++ ".tex"))
        ("resume_" ++ w.pdf_uuid) w.temp_dir = .ok p)
    (hlu : ∃ lr, w.latex_upload = .ok lr)
    (hpu : ∃ pr, w.pdf_upload = .ok pr)
    (hthumb : w.page_count = 0 ∨ ∃ e, w.thumbnail_upload = .error e) :
    ∃ lr pr, w.latex_upload = .ok lr ∧ w.pdf_upload = .ok pr ∧
      generate_and_upload_resume_pdf resume_data user_data rid db template w =
        (.ok (w.pdf_bytes,
          ⟨some lr.url, some lr.public_id, some pr.url, some pr.public_id,
           none, none⟩),
         { db with resumes := (updateResumeArtifacts db.resumes rid
            ⟨some lr.url, some lr.public_id, some pr.url, some pr.public_id,
             none, none⟩) }) := by
  obtain ⟨L, hL⟩ := hlatex
  obtain ⟨p, hc⟩ := hcompile
  obtain ⟨lr, hlu'⟩ := hlu
  obtain ⟨pr, hpu'⟩ := hpu
  refine ⟨lr, pr, hlu', hpu', ?_⟩
  rcases hthumb with h0 | ⟨e, he⟩
  · simp [generate_and_upload_resume_pdf, hL, hc, hlu', hpu',
      convert_first_page_to_image, h0]
  · by_cases hz : w.page_count = 0 <;>
      simp [generate_and_upload_resume_pdf, hL, hc, hlu', hpu',
        convert_first_page_to_image, hz, he]

/-- Witness for C4: concrete pipeline world with a zero-page compiled
document; the run still succeeds with null thumbnail fields. -/
theorem c4_thumbnail_best_effort_witness :
    ∃ lr pr, c4world.latex_upload = .ok lr ∧ c4world.pdf_upload = .ok pr ∧
      generate_and_upload_resume_pdf resumeEx userEx 100 dbEx c6tmpl c4world =
        (.ok (c4world.pdf_bytes,
          ⟨some lr.url, some lr.public_id, some pr.url, some pr.public_id,
           none, none⟩),
         { dbEx with resumes := (updateResumeArtifacts dbEx.resumes 100
            ⟨some lr.url, some lr.public_id, some pr.url, some pr.public_id,
             none, none⟩) }) :=
  c4_thumbnail_best_effort resumeEx userEx 100 dbEx c6tmpl c4world
    ⟨_, rfl⟩ ⟨_, rfl⟩ ⟨_, rfl⟩ ⟨_, rfl⟩ (Or.inl rfl)

theorem mem_missingOf (ids : List Nat) (owners : List (Nat × Nat))
    (uid i : Nat) :
    i ∈ missingOf ids owners uid ↔
      i ∈ ids ∧ ¬∃ d, d ∈ owners ∧ d.1 = i ∧ d.2 = uid := by
  simp only [missingOf, foundIds, List.mem_filter, decide_eq_true_eq,
    List.mem_map]
  constructor
  · rintro ⟨hi, hn⟩
    refine ⟨hi, ?_⟩
    rintro ⟨d, hd, hdi, hdu⟩
    exact hn ⟨d, ⟨hd, hdi ▸ hi, hdu⟩, hdi⟩
  · rintro ⟨hi, hn⟩
    refine ⟨hi, ?_⟩
    rintro ⟨d, ⟨hdo, _hins, hdu⟩, hdi⟩
    exact hn ⟨d, hdo, hdi, hdu⟩

theorem validate_error_of_missing (ids : List Nat) (owners : List (Nat × Nat))
    (uid : Nat) (k : ElemKind)
    (h : ∃ i, i ∈ ids ∧ ¬∃ d, d ∈ owners ∧ d.1 = i ∧ d.2 = uid) :
    validate_referenced_ids ids owners uid k =
      .error ⟨404, k, missingOf ids owners uid⟩ := by
  obtain ⟨i, hi, hno⟩ := h
  have hne : ids ≠ [] := List.ne_nil_of_mem hi
  have hm : missingOf ids owners uid ≠ [] :=
    List.ne_nil_of_mem ((mem_missingOf ids owners uid i).mpr ⟨hi, hno⟩)
  rw [validate_referenced_ids, if_neg hne, if_neg hm]

theorem validate_error_spec (ids : List Nat) (owners : List (Nat × Nat))
    (uid : Nat) (k : ElemKind) (e : ValErr)
    (h : validate_referenced_ids ids owners uid k = .error e) :
    e.status_code = 404 ∧ e.kind = k ∧
      ∀ i, i ∈ e.missing ↔ i ∈ ids ∧ ¬∃ d, d ∈ owners ∧ d.1 = i ∧ d.2 = uid := by
  rw [validate_referenced_ids] at h
  by_cases h0 : ids = []
  · rw [if_pos h0] at h
    exact absurd h (by simp)
  · rw [if_neg h0] at h
    by_cases hm : missingOf ids owners uid = []
    · rw [if_pos hm] at h
      exact absurd h (by simp)
    · rw [if_neg hm] at h
      injection h with h
      subst h
      exact ⟨rfl, rfl, fun i => mem_missingOf ids owners uid i⟩

theorem validateAll_error_of_invalid (req : ElemKind → List Nat) (s : Stores)
    (uid : Nat) (ks : List ElemKind)
    (h : ∃ k, k ∈ ks ∧ ∃ i, i ∈ req k ∧
      ¬∃ d, d ∈ s.idsOf k ∧ d.1 = i ∧ d.2 = uid) :
    ∃ e, validateAll req s uid ks = .error e := by
  induction ks with
  | nil =>
      obtain ⟨k, hk, _⟩ := h
      exact absurd hk (List.not_mem_nil k)
  | cons k' ks ih =>
      obtain ⟨k, hk, hbad⟩ := h
      rcases List.mem_cons.mp hk with rfl | hk'
      · rw [validateAll, validate_error_of_missing (req k) (s.idsOf k) uid k hbad]
        exact ⟨_, rfl⟩
      · cases hv : validate_referenced_ids (req k') (s.idsOf k') uid k' with
        | error e =>
            rw [validateAll, hv]
            exact ⟨e, rfl⟩
        | ok v =>
            rw [validateAll, hv]
            exact ih ⟨k, hk', hbad⟩

/-- C3: a reference-validation failure carries status 404 and names exactly
the requested-minus-found identifier set of the failing kind; whenever any
kind's list contains an identifier that does not resolve to an element owned
by the requesting user, the validation phase fails; and on a validation
failure neither `create_custom_resume` nor `update_custom_resume` touches
the store — all kinds are validated before any persistence. -/
theorem c3_reference_validation :
    (∀ ids owners uid k e,
      validate_referenced_ids ids owners uid k = .error e →
      e.status_code = 404 ∧ e.kind = k ∧
        ∀ i, i ∈ e.missing ↔ i ∈ ids ∧ ¬∃ d, d ∈ owners ∧ d.1 = i ∧ d.2 = uid) ∧
    (∀ (req : ElemKind → List Nat) (s : Stores) (uid : Nat),
      (∃ k, k ∈ kindOrder ∧ ∃ i, i ∈ req k ∧
        ¬∃ d, d ∈ s.idsOf k ∧ d.1 = i ∧ d.2 = uid) →
      ∃ e, validateAll req s uid kindOrder = .error e) ∧
    (∀ db uid resume_data max_resume new_id template w e,
      (db.resumes.filter (fun d => decide (d.user_id = uid))).length <
        max_resume →
      validateAll resume_data.req db.elements uid kindOrder = .error e →
      create_custom_resume db uid resume_data max_resume new_id template w =
        (.error (.validation e), db)) ∧
    (∀ db uid rid resume_data template w doc e,
      findResume db.resumes rid uid = some doc →
      validateAllOpt resume_data.req db.elements uid kindOrder = .error e →
      update_custom_resume db uid rid resume_data template w =
        (.error (.validation e), db)) := by
  refine ⟨fun ids owners uid k e h => validate_error_spec ids owners uid k e h,
    fun req s uid h => validateAll_error_of_invalid req s uid kindOrder h,
    ?_, ?_⟩
  · intro db uid rd mr nid t w e hcount hval
    simp only [create_custom_resume]
    rw [if_neg (Nat.not_le.mpr hcount), hval]
  · intro db uid rid rd t w doc e hfind hval
    simp only [update_custom_resume]
    rw [hfind, hval]

/-- Witness for C3 at the spec's own scenario: education ids `{1, 2, 3}`
requested, element 3 owned by another user — validation names exactly `{3}`
and create leaves the store unchanged. -/
theorem c3_reference_validation_witness :
    (∀ i, i ∈ (⟨404, ElemKind.education, [3]⟩ : ValErr).missing ↔
      i ∈ [1, 2, 3] ∧ ¬∃ d, d ∈ c3owners ∧ d.1 = i ∧ d.2 = 1) ∧
    (∃ e, validateAll c3req.req c3stores 1 kindOrder = .error e) ∧
    create_custom_resume c3db 1 c3req 5 100 c6tmpl c4world =
      (.error (.validation ⟨404, .education, [3]⟩), c3db) :=
  ⟨(c3_reference_validation.1 [1, 2, 3] c3owners 1 .education
      ⟨404, .education, [3]⟩ rfl).2.2,
   c3_reference_validation.2.1 c3req.req c3stores 1
     ⟨.education, by decide, 3, by decide, by decide⟩,
   c3_reference_validation.2.2.1 c3db 1 c3req 5 100 c6tmpl c4world
     ⟨404, .education, [3]⟩ (by decide) rfl⟩

theorem compileStage_error_500 (fs : List String) (p : ProcResult)
    (a b c : String) (e : HTTPException)
    (h : compileStage fs p a b c = .error e) : e.status_code = 500 := by
  rw [compileStage] at h
  split at h
  · injection h with h'
    subst h'
    rfl
  · injection h with h'
    subst h'
    rfl
  · split at h
    · exact absurd h (by simp)
    · injection h with h'
      subst h'
      rfl

theorem genUpload_error (r : CustomResumeResponse) (u : UserResponse)
    (rid : Nat) (db : DB) (t : Str) (w : PdfWorld) (e : HTTPException)
    (db2 : DB)
    (h : generate_and_upload_resume_pdf r u rid db t w = (.error e, db2)) :
    db2 = db ∧ e.status_code = 500 := by
  cases hg : generate_latex_from_resume r u t with
  | error eL =>
      simp only [generate_and_upload_resume_pdf, hg, Prod.mk.injEq,
        Except.error.injEq] at h
      exact ⟨h.2.symm, by rw [← h.1]⟩
  | ok L =>
      cases hcs : compileStage
          (pyPathJoin w.temp_dir ("resume_" ++ w.tex_uuid ++ ".tex") :: w.fs)
          w.proc (pyPathJoin w.temp_dir ("resume_" ++ w.tex_uuid ++ ".tex"))
          ("resume_" ++ w.pdf_uuid) w.temp_dir with
      | error eC =>
          simp only [generate_and_upload_resume_pdf, hg, hcs, Prod.mk.injEq,
            Except.error.injEq] at h
          exact ⟨h.2.symm, h.1 ▸ compileStage_error_500 _ _ _ _ _ _ hcs⟩
      | ok pP =>
          cases hlu : w.latex_upload with
          | error m =>
              simp only [generate_and_upload_resume_pdf, hg, hcs, hlu,
                Prod.mk.injEq, Except.error.injEq] at h
              exact ⟨h.2.symm, by rw [← h.1]⟩
          | ok lr =>
              cases hpu : w.pdf_upload with
              | error m =>
                  simp only [generate_and_upload_resume_pdf, hg, hcs, hlu,
                    hpu, Prod.mk.injEq, Except.error.injEq] at h
                  exact ⟨h.2.symm, by rw [← h.1]⟩
              | ok pr =>
                  simp [generate_and_upload_resume_pdf, hg, hcs, hlu, hpu] at h

/-- C5: once the metadata write is committed (insert on create, `$set` on
update), a failure of the later pipeline (render, compile or a mandatory
upload) surfaces as an HTTP 500 to the caller while the written metadata
survives: the created document is still stored, and the updated document
still carries its new reference lists. -/
theorem c5_metadata_write_survives_failure :
    (∀ db uid resume_data max_resume new_id template w e db2,
      (db.resumes.filter (fun d => decide (d.user_id = uid))).length <
        max_resume →
      validateAll resume_data.req db.elements uid kindOrder = .ok () →
      ∀ user_doc, findUser db.users uid = some user_doc →
      generate_and_upload_resume_pdf
          (buildResponse (createdDoc new_id uid resume_data)
            (populate_references (createdDoc new_id uid resume_data) uid
              db.elements))
          user_doc (createdDoc new_id uid resume_data).id
          { db with resumes :=
            (db.resumes ++ [createdDoc new_id uid resume_data]) }
          template w = (.error e, db2) →
      create_custom_resume db uid resume_data max_resume new_id template w =
        (.error (.http e), db2) ∧
      createdDoc new_id uid resume_data ∈ db2.resumes ∧
      e.status_code = 500) ∧
    (∀ db uid rid resume_data template w doc e db2,
      findResume db.resumes rid uid = some doc →
      validateAllOpt resume_data.req db.elements uid kindOrder = .ok () →
      ∀ user_doc, findUser db.users uid = some user_doc →
      generate_and_upload_resume_pdf
          (buildResponse (applyUpdate doc resume_data)
            (populate_references (applyUpdate doc resume_data) uid
              db.elements))
          user_doc (applyUpdate doc resume_data).id
          { db with resumes := (db.resumes.map (fun d =>
            if d.id = rid then applyUpdate doc resume_data else d)) }
          template w = (.error e, db2) →
      update_custom_resume db uid rid resume_data template w =
        (.error (.http e), db2) ∧
      applyUpdate doc resume_data ∈ db2.resumes ∧
      e.status_code = 500) := by
  constructor
  · intro db uid rd mr nid t w e db2 hcount hval u hu hfail
    obtain ⟨hdb, h500⟩ := genUpload_error _ _ _ _ _ _ _ _ hfail
    refine ⟨?_, ?_, h500⟩
    · simp only [create_custom_resume]
      rw [if_neg (Nat.not_le.mpr hcount)]
      simp only [hval, hu, hfail]
    · rw [hdb]
      exact List.mem_append_right _ (List.mem_singleton_self _)
  · intro db uid rid rd t w doc e db2 hfind hval u hu hfail
    obtain ⟨hdb, h500⟩ := genUpload_error _ _ _ _ _ _ _ _ hfail
    refine ⟨?_, ?_, h500⟩
    · simp only [update_custom_resume, hfind, hval, hu, hfail]
    · rw [hdb]
      have hfind' := hfind
      rw [findResume] at hfind'
      have hmem := List.mem_of_find?_eq_some hfind'
      have hpred := List.find?_some hfind'
      rw [Bool.and_eq_true, beq_iff_eq, beq_iff_eq] at hpred
      exact List.mem_map.mpr ⟨doc, hmem, by rw [if_pos hpred.1]⟩

/-- Witness for C5: a concrete create run whose compile step fails; the
request answers 500 and the inserted metadata document is still stored. -/
theorem c5_metadata_write_survives_failure_witness :
    create_custom_resume c3db 1 c5req 5 100 c6tmpl c5world =
      (.error (.http c5err), c5db2) ∧
    createdDoc 100 1 c5req ∈ c5db2.resumes ∧
    c5err.status_code = 500 :=
  c5_metadata_write_survives_failure.1 c3db 1 c5req 5 100 c6tmpl c5world
    c5err c5db2 (by decide) rfl userEx rfl rfl

theorem mem_populate_educations (doc : CustomResumeDoc) (uid : Nat)
    (s : Stores) (ed : EducationResponse) :
    ed ∈ (populate_references doc uid s).educations ↔
      ed ∈ s.educations ∧ ed.id ∈ doc.education_ids ∧ ed.user_id = uid := by
  simp only [populate_references]
  by_cases h : doc.education_ids = []
  · simp [h]
  · simp [h, List.mem_filter, decide_eq_true_eq, and_assoc]

theorem mem_ifFilter {α : Type} (ids : List Nat) (l : List α)
    (idf uf : α → Nat) (uid : Nat) (e : α) :
    (e ∈ if ids = [] then [] else
      l.filter (fun x => decide (idf x ∈ ids ∧ uf x = uid))) ↔
      e ∈ l ∧ idf e ∈ ids ∧ uf e = uid := by
  by_cases h : ids = []
  · simp [h]
  · simp [h, List.mem_filter, decide_eq_true_eq]

theorem mem_idsOf_ifFilter {α : Type} (ids : List Nat) (l : List α)
    (idf uf : α → Nat) (uid i : Nat) :
    (i ∈ (if ids = [] then [] else
      l.filter (fun x => decide (idf x ∈ ids ∧ uf x = uid))).map idf) ↔
      i ∈ ids ∧ ∃ p, p ∈ l.map (fun x => (idf x, uf x)) ∧ p.1 = i ∧
        p.2 = uid := by
  by_cases h : ids = []
  · simp [h]
  · simp only [if_neg h, List.mem_map, List.mem_filter, decide_eq_true_eq]
    constructor
    · rintro ⟨e, ⟨he, hin, hu⟩, rfl⟩
      exact ⟨hin, (idf e, uf e), ⟨e, he, rfl⟩, rfl, hu⟩
    · rintro ⟨hin, p, ⟨e, he, rfl⟩, h1, h2⟩
      have h1' : idf e = i := h1
      have h2' : uf e = uid := h2
      exact ⟨e, ⟨he, h1' ▸ hin, h2'⟩, h1'⟩

theorem mem_populate_idsOf (doc : CustomResumeDoc) (uid : Nat) (s : Stores)
    (k : ElemKind) (i : Nat) :
    i ∈ (populate_references doc uid s).idsOf k ↔
      i ∈ doc.idsOf k ∧
        ∃ p, p ∈ s.idsOf k ∧ p.1 = i ∧ p.2 = uid := by
  cases k <;>
    (simp only [populate_references, PopulatedElements.idsOf,
       CustomResumeDoc.idsOf, Stores.idsOf]
     exact mem_idsOf_ifFilter _ _ _ _ uid i)

/-- C10: the populate step silently omits referenced identifiers of any of
the eight element kinds that no longer resolve to an element owned by the
user — for every kind it returns exactly the resolvable elements, never an
error — and the generate-pdf route therefore proceeds: when the pipeline
succeeds on the remaining elements, the route returns the compiled document
instead of a reference-not-found error. -/
theorem c10_dangling_references_dropped (db : DB) (uid : Nat)
    (doc : CustomResumeDoc) (k : ElemKind) (X : Nat) (template : Str)
    (w : PdfWorld)
    (_hX : X ∈ doc.idsOf k)
    (hdangling : ¬∃ p, p ∈ db.elements.idsOf k ∧ p.1 = X ∧ p.2 = uid)
    (hfind : findResume db.resumes doc.id uid = some doc) :
    ((∀ e, e ∈ (populate_references doc uid db.elements).headings ↔
        e ∈ db.elements.headings ∧ e.id ∈ doc.heading_ids ∧
          e.user_id = uid) ∧
     (∀ e, e ∈ (populate_references doc uid db.elements).educations ↔
        e ∈ db.elements.educations ∧ e.id ∈ doc.education_ids ∧
          e.user_id = uid) ∧
     (∀ e, e ∈ (populate_references doc uid db.elements).experiences ↔
        e ∈ db.elements.experiences ∧ e.id ∈ doc.experience_ids ∧
          e.user_id = uid) ∧
     (∀ e, e ∈ (populate_references doc uid db.elements).projects ↔
        e ∈ db.elements.projects ∧ e.id ∈ doc.project_ids ∧
          e.user_id = uid) ∧
     (∀ e, e ∈ (populate_references doc uid db.elements).skills ↔
        e ∈ db.elements.skills ∧ e.id ∈ doc.skill_ids ∧
          e.user_id = uid) ∧
     (∀ e, e ∈ (populate_references doc uid db.elements).volunteers ↔
        e ∈ db.elements.volunteers ∧ e.id ∈ doc.volunteer_ids ∧
          e.user_id = uid) ∧
     (∀ e, e ∈ (populate_references doc uid db.elements).certifications ↔
        e ∈ db.elements.certifications ∧ e.id ∈ doc.certification_ids ∧
          e.user_id = uid) ∧
     (∀ e, e ∈ (populate_references doc uid db.elements).awards ↔
        e ∈ db.elements.awards ∧ e.id ∈ doc.award_ids ∧
          e.user_id = uid)) ∧
    (∀ k' i, i ∈ (populate_references doc uid db.elements).idsOf k' ↔
      i ∈ doc.idsOf k' ∧
        ∃ p, p ∈ db.elements.idsOf k' ∧ p.1 = i ∧ p.2 = uid) ∧
    X ∉ (populate_references doc uid db.elements).idsOf k ∧
    (∀ user_doc, findUser db.users uid = some user_doc →
      ∀ b cd db2,
        generate_and_upload_resume_pdf
          (buildResponse doc (populate_references doc uid db.elements))
          user_doc doc.id db template w = (.ok (b, cd), db2) →
        generate_pdf db doc.id uid template w = (.ok b, db2)) := by
  refine ⟨⟨?_, ?_, ?_, ?_, ?_, ?_, ?_, ?_⟩,
    fun k' i => mem_populate_idsOf doc uid db.elements k' i, ?_, ?_⟩
  · intro e
    simp only [populate_references]
    exact mem_ifFilter doc.heading_ids db.elements.headings _ _ uid e
  · intro e
    simp only [populate_references]
    exact mem_ifFilter doc.education_ids db.elements.educations _ _ uid e
  · intro e
    simp only [populate_references]
    exact mem_ifFilter doc.experience_ids db.elements.experiences _ _ uid e
  · intro e
    simp only [populate_references]
    exact mem_ifFilter doc.project_ids db.elements.projects _ _ uid e
  · intro e
    simp only [populate_references]
    exact mem_ifFilter doc.skill_ids db.elements.skills _ _ uid e
  · intro e
    simp only [populate_references]
    exact mem_ifFilter doc.volunteer_ids db.elements.volunteers _ _ uid e
  · intro e
    simp only [populate_references]
    exact mem_ifFilter doc.certification_ids db.elements.certifications _ _
      uid e
  · intro e
    simp only [populate_references]
    exact mem_ifFilter doc.award_ids db.elements.awards _ _ uid e
  · intro hmem
    obtain ⟨_hin, p, hp, h1, h2⟩ :=
      (mem_populate_idsOf doc uid db.elements k X).mp hmem
    exact hdangling ⟨p, hp, h1, h2⟩
  · intro u hu b cd db2 hok
    simp only [generate_pdf, hfind, hu, hok]

/-- Witness for C10: a stored resume referencing education ids `[10, 99]`
with 99 dangling still generates successfully, rendering from element 10
alone. -/
theorem c10_dangling_references_dropped_witness :
    (99 : Nat) ∉ (populate_references c10doc 1 c10db.elements).idsOf
      .education ∧
    generate_pdf c10db c10doc.id 1 c6tmpl c4world =
      (.ok c4world.pdf_bytes, c10db2) :=
  ⟨(c10_dangling_references_dropped c10db 1 c10doc .education 99 c6tmpl
      c4world (by decide) (by decide) rfl).2.2.1,
   (c10_dangling_references_dropped c10db 1 c10doc .education 99 c6tmpl
      c4world (by decide) (by decide) rfl).2.2.2 userEx rfl
     c4world.pdf_bytes c10cd c10db2 rfl⟩

end Resumaker
